import Mathlib

/-!
Verification of the color-perception game engine in src/src/App.tsx.

The engine consists of a round generator (generateColors, lines 134-158)
and a session state machine spread over the React component App
(startGame lines 179-191, nextLevel lines 193-211, handleBlockClick
lines 213-226, and the timer interval callback lines 228-246).

Randomness: every call of the form Math.floor(Math.random() * n) yields
an integer uniformly in [0, n), and Math.random() > 0.5 yields a Bool.
We embed the random source as an explicit Rand record of natural numbers
and a Bool; each raw natural is mapped into its range by % n, so the
embedded functions range over exactly the outcomes the source can draw.
-/

namespace ColorGame

/-- An HSL color, mirroring interface Color (App.tsx lines 13-17).
Fields are Int because the source stores JS numbers and diffColor.l is
computed by unclamped subtraction. -/
structure Color where
  h : Int
  s : Int
  l : Int
  deriving DecidableEq, Repr

/-- Session status, mirroring the status union at App.tsx line 22.
The source calls the terminal state gameover; the spec calls it ended. -/
inductive Status where
  | idle
  | playing
  | gameover
  deriving DecidableEq, Repr

/-- The snapshot stored in lastDiffInfo (App.tsx lines 30-34): CSS strings
for the two colors plus a lightness delta. -/
structure LastDiffInfo where
  base : String
  diff : String
  delta : Int
  deriving DecidableEq, Repr

/-- The mutable game state, mirroring interface GameState
(App.tsx lines 21-35). -/
structure GameState where
  status : Status
  score : Nat
  timeLeft : Int
  level : Nat
  gridSize : Nat
  baseColor : Color
  diffColor : Color
  diffIndex : Nat
  lastDiffInfo : Option LastDiffInfo
  deriving DecidableEq, Repr

/-- One bundle of random draws consumed by a single generateColors call:
raw naturals for hue, saturation, lightness and cell index (mapped into
range by %), and the coin flip Math.random() > 0.5. -/
structure Rand where
  rh : Nat
  rs : Nat
  rl : Nat
  lighter : Bool
  ridx : Nat
  deriving DecidableEq, Repr

/-- The result of generateColors (App.tsx line 157). -/
structure Round where
  baseColor : Color
  diffColor : Color
  diffIndex : Nat
  gridSize : Nat
  delta : Int
  deriving DecidableEq, Repr

/-- INITIAL_TIME = 60 (App.tsx line 128). -/
def INITIAL_TIME : Int := 60

/-- MIN_DELTA = 1 (App.tsx line 129). -/
def MIN_DELTA : Int := 1

/-- colorToCSS (App.tsx line 132). -/
def colorToCSS (c : Color) : String :=
  "hsl(" ++ toString c.h ++ ", " ++ toString c.s ++ "%, " ++ toString c.l ++ "%)"

/-- The gridSize computation of generateColors (App.tsx lines 147-153):
a chain of reassignments where the last satisfied guard wins. -/
def gridSizeOf (level : Nat) : Nat :=
  let g := 2
  let g := if level > 2 then 3 else g
  let g := if level > 6 then 4 else g
  let g := if level > 12 then 5 else g
  let g := if level > 20 then 6 else g
  let g := if level > 30 then 7 else g
  let g := if level > 45 then 8 else g
  g

/-- generateColors (App.tsx lines 134-158). The three base components are
drawn as h in [0,360), s in [40,80), l in [30,70); delta is
max(MIN_DELTA, 15 - floor(level / 4)); the differing lightness is
l + delta or l - delta by coin flip, with no clamping; diffIndex is drawn
uniformly in [0, gridSize * gridSize). -/
def generateColors (level : Nat) (r : Rand) : Round :=
  let h : Int := (↑(r.rh % 360) : Int)
  let s : Int := (↑(r.rs % 40) : Int) + 40
  let l : Int := (↑(r.rl % 40) : Int) + 30
  let delta : Int := max MIN_DELTA (15 - (↑(level / 4) : Int))
  let diffL : Int := if r.lighter then l + delta else l - delta
  let baseColor : Color := { h := h, s := s, l := l }
  let diffColor : Color := { h := h, s := s, l := diffL }
  let gridSize : Nat := gridSizeOf level
  let diffIndex : Nat := r.ridx % (gridSize * gridSize)
  { baseColor := baseColor
    diffColor := diffColor
    diffIndex := diffIndex
    gridSize := gridSize
    delta := delta }

/-- The initial useState value (App.tsx lines 162-171). -/
def initialState : GameState :=
  { status := Status.idle
    score := 0
    timeLeft := INITIAL_TIME
    level := 1
    gridSize := 2
    baseColor := { h := 0, s := 0, l := 0 }
    diffColor := { h := 0, s := 0, l := 0 }
    diffIndex := 0
    lastDiffInfo := none }

/-- startGame (App.tsx lines 179-191): replaces the whole state with a
fresh one built from generateColors(1); the object literal omits
lastDiffInfo, so the snapshot field resets to undefined. -/
def startGame (r : Rand) : GameState :=
  let g := generateColors 1 r
  { status := Status.playing
    score := 0
    timeLeft := INITIAL_TIME
    level := 1
    gridSize := g.gridSize
    baseColor := g.baseColor
    diffColor := g.diffColor
    diffIndex := g.diffIndex
    lastDiffInfo := none }

/-- nextLevel (App.tsx lines 193-211): advances level, increments score,
installs the round generated for the new level, and stores in
lastDiffInfo the CSS of the previous round colors together with the delta
destructured from the NEW round (the delta binding on line 195 comes from
generateColors(nextLvl)). -/
def nextLevel (st : GameState) (r : Rand) : GameState :=
  let nextLvl := st.level + 1
  let g := generateColors nextLvl r
  { st with
    level := nextLvl
    score := st.score + 1
    gridSize := g.gridSize
    baseColor := g.baseColor
    diffColor := g.diffColor
    diffIndex := g.diffIndex
    lastDiffInfo := some { base := colorToCSS st.baseColor
                           diff := colorToCSS st.diffColor
                           delta := g.delta } }

/-- handleBlockClick (App.tsx lines 213-226): early return unless playing;
on the differing index, nextLevel; otherwise clamp timeLeft down by 3. -/
def handleBlockClick (st : GameState) (index : Nat) (r : Rand) : GameState :=
  if st.status ≠ Status.playing then st
  else if index = st.diffIndex then nextLevel st r
  else { st with timeLeft := max 0 (st.timeLeft - 3) }

/-- One timer tick: the setInterval callback body (App.tsx lines 231-237).
The interval only runs while status is playing (the effect at lines
228-246 installs it on entering playing and clears it on leaving), which
we model as the status guard; inside, timeLeft ≤ 1 ends the game with
timeLeft clamped to 0, otherwise timeLeft decrements by 1. -/
def tick (st : GameState) : GameState :=
  if st.status ≠ Status.playing then st
  else if st.timeLeft ≤ 1 then { st with timeLeft := 0, status := Status.gameover }
  else { st with timeLeft := st.timeLeft - 1 }

/-- The commands the presentation layer can dispatch into the engine. -/
inductive Cmd where
  | start (r : Rand)
  | select (index : Nat) (r : Rand)
  | timerTick

/-- The whole engine as one step function over commands. -/
def step (st : GameState) (c : Cmd) : GameState :=
  match c with
  | Cmd.start r => startGame r
  | Cmd.select i r => handleBlockClick st i r
  | Cmd.timerTick => tick st

/-- The states the engine can reach from its initial useState value. -/
inductive Reachable : GameState → Prop where
  | init : Reachable initialState
  | step : ∀ st c, Reachable st → Reachable (step st c)

end ColorGame

namespace ColorGame

/-! Helper lemmas shared by several claim theorems. -/

/-- The gridSize of a generated round, rewritten as one nested conditional
(this is the zeta-reduction of the reassignment chain, last guard first). -/
lemma gridSize_eq_cases (M : Nat) (r : Rand) :
    (generateColors M r).gridSize =
      if M > 45 then 8 else if M > 30 then 7 else if M > 20 then 6
      else if M > 12 then 5 else if M > 6 then 4 else if M > 2 then 3 else 2 :=
  rfl

/-- Every breakpoint value is at least 2, so the grid always has cells. -/
lemma two_le_gridSize (M : Nat) (r : Rand) : 2 ≤ (generateColors M r).gridSize := by
  rw [gridSize_eq_cases]
  split_ifs <;> omega

/-- A tick in playing with at least 2 seconds left just decrements. -/
lemma tick_decrement (st : GameState) (h : st.status = Status.playing)
    (hgt : ¬ st.timeLeft ≤ 1) :
    tick st = { st with timeLeft := st.timeLeft - 1 } := by
  unfold tick
  rw [if_neg (not_not_intro h), if_neg hgt]

/-- A tick in playing with at most 1 second left clamps to 0 and ends. -/
lemma tick_timeout (st : GameState) (h : st.status = Status.playing)
    (hle : st.timeLeft ≤ 1) :
    tick st = { st with timeLeft := 0, status := Status.gameover } := by
  unfold tick
  rw [if_neg (not_not_intro h), if_pos hle]

/-- Iterating tick k times from a playing state with more than k seconds
left just counts down, staying in playing. -/
lemma tick_iterate (s : GameState) (hs : s.status = Status.playing) :
    ∀ k : Nat, (k : Int) < s.timeLeft →
      (tick^[k] s).timeLeft = s.timeLeft - k ∧ (tick^[k] s).status = Status.playing := by
  intro k
  induction k with
  | zero => intro _; simp [hs]
  | succ n ih =>
    intro hk
    have hn : (n : Int) < s.timeLeft := by push_cast at hk ⊢; omega
    obtain ⟨h1, h2⟩ := ih hn
    have hgt : ¬ (tick^[n] s).timeLeft ≤ 1 := by
      rw [h1]; push_cast at hk ⊢; omega
    rw [Function.iterate_succ_apply', tick_decrement _ h2 hgt]
    refine ⟨?_, ?_⟩
    · show (tick^[n] s).timeLeft - 1 = s.timeLeft - ((n : Int) + 1)
      rw [h1]; ring
    · exact h2

end ColorGame

namespace ColorGame

/-! Concrete inputs used by witnesses and counterexamples. -/

/-- A concrete random draw: hue 200, saturation 50, lightness 50, darker
direction, cell 0. -/
def rand0 : Rand := { rh := 200, rs := 10, rl := 20, lighter := false, ridx := 0 }

/-- A concrete playing state holding the round that generateColors 3 rand0
produces (level 3, base hsl(200,50%,50%), diff hsl(200,50%,35%), a
lightness gap of 15). -/
def sLevel3 : GameState :=
  { status := Status.playing
    score := 5
    timeLeft := 40
    level := 3
    gridSize := 3
    baseColor := { h := 200, s := 50, l := 50 }
    diffColor := { h := 200, s := 50, l := 35 }
    diffIndex := 0
    lastDiffInfo := none }

/-- A concrete playing state with 2 seconds left, about to suffer an
incorrect selection. -/
def sClamp : GameState :=
  { status := Status.playing
    score := 0
    timeLeft := 2
    level := 1
    gridSize := 2
    baseColor := { h := 0, s := 40, l := 30 }
    diffColor := { h := 0, s := 40, l := 45 }
    diffIndex := 0
    lastDiffInfo := none }

/-! Claim theorems. -/

/-- Claim C1: for every level L at least 1 and every random draw, the
generated round has delta equal to max(1, 15 - floor(L/4)), and in
particular delta is at least 1, so it never reaches zero. -/
theorem delta_policy (L : Nat) (r : Rand) (hL : 1 ≤ L) :
    (generateColors L r).delta = max 1 (15 - (↑(L / 4) : Int)) ∧
    1 ≤ (generateColors L r).delta := by
  refine ⟨rfl, ?_⟩
  exact le_max_left 1 _

/-- Witness for C1 at level 5. -/
theorem delta_policy_witness :
    (generateColors 5 rand0).delta = max 1 (15 - (↑(5 / 4 : Nat) : Int)) ∧
    1 ≤ (generateColors 5 rand0).delta :=
  delta_policy 5 rand0 (by decide)

/-- Claim C2: the gridSize of a generated round follows the breakpoint
table with inclusive 1-indexed lower bounds: levels 1-2 give 2, 3-6 give
3, 7-12 give 4, 13-20 give 5, 21-30 give 6, 31-45 give 7, and 46 plus
give 8; in particular level 48 gives 8. -/
theorem gridSize_breakpoints (L : Nat) (r : Rand) :
    (1 ≤ L → L ≤ 2 → (generateColors L r).gridSize = 2) ∧
    (3 ≤ L → L ≤ 6 → (generateColors L r).gridSize = 3) ∧
    (7 ≤ L → L ≤ 12 → (generateColors L r).gridSize = 4) ∧
    (13 ≤ L → L ≤ 20 → (generateColors L r).gridSize = 5) ∧
    (21 ≤ L → L ≤ 30 → (generateColors L r).gridSize = 6) ∧
    (31 ≤ L → L ≤ 45 → (generateColors L r).gridSize = 7) ∧
    (46 ≤ L → (generateColors L r).gridSize = 8) ∧
    (generateColors 48 r).gridSize = 8 := by
  refine ⟨?_, ?_, ?_, ?_, ?_, ?_, ?_, ?_⟩ <;>
    (intros; rw [gridSize_eq_cases]; split_ifs <;> omega)

/-- Witness for C2 at level 48. -/
theorem gridSize_breakpoints_witness :
    (generateColors 48 rand0).gridSize = 8 ∧ (generateColors 2 rand0).gridSize = 2 :=
  ⟨(gridSize_breakpoints 48 rand0).2.2.2.2.2.2.1 (by decide),
   (gridSize_breakpoints 2 rand0).1 (by decide) (by decide)⟩

/-- Claim C10: for every level L at least 1 and every random draw, the base
lightness is in [30, 69], delta is at most 15, and the unclamped lightness
of the differing color stays in [15, 84], so it never leaves [0, 100]. -/
theorem diff_lightness_bounds (L : Nat) (r : Rand) (hL : 1 ≤ L) :
    30 ≤ (generateColors L r).baseColor.l ∧ (generateColors L r).baseColor.l ≤ 69 ∧
    (generateColors L r).delta ≤ 15 ∧
    15 ≤ (generateColors L r).diffColor.l ∧ (generateColors L r).diffColor.l ≤ 84 := by
  have hl : (generateColors L r).baseColor.l = (↑(r.rl % 40) : Int) + 30 := rfl
  have hd : (generateColors L r).delta = max MIN_DELTA (15 - (↑(L / 4) : Int)) := rfl
  have hdiff : (generateColors L r).diffColor.l =
      if r.lighter then (generateColors L r).baseColor.l + (generateColors L r).delta
      else (generateColors L r).baseColor.l - (generateColors L r).delta := rfl
  have hmod : r.rl % 40 < 40 := Nat.mod_lt _ (by norm_num)
  have hd1 : 1 ≤ (generateColors L r).delta := le_max_left 1 _
  have hd2 : (generateColors L r).delta ≤ 15 := by
    rw [hd]
    apply max_le
    · norm_num [MIN_DELTA]
    · omega
  have hbl1 : 30 ≤ (generateColors L r).baseColor.l := by rw [hl]; omega
  have hbl2 : (generateColors L r).baseColor.l ≤ 69 := by rw [hl]; omega
  refine ⟨hbl1, hbl2, hd2, ?_, ?_⟩
  · rw [hdiff]
    cases hb : r.lighter <;> simp [hb] <;> omega
  · rw [hdiff]
    cases hb : r.lighter <;> simp [hb] <;> omega

/-- Witness for C10 at level 1. -/
theorem diff_lightness_bounds_witness :
    30 ≤ (generateColors 1 rand0).baseColor.l ∧ (generateColors 1 rand0).baseColor.l ≤ 69 ∧
    (generateColors 1 rand0).delta ≤ 15 ∧
    15 ≤ (generateColors 1 rand0).diffColor.l ∧ (generateColors 1 rand0).diffColor.l ≤ 84 :=
  diff_lightness_bounds 1 rand0 (by decide)

end ColorGame

namespace ColorGame

/-- A selection while not playing falls into the early return. -/
lemma handleBlockClick_not_playing (st : GameState) (i : Nat) (r : Rand)
    (hs : st.status ≠ Status.playing) : handleBlockClick st i r = st := by
  unfold handleBlockClick
  rw [if_pos hs]

/-- A tick while not playing leaves the state alone (no interval runs). -/
lemma tick_not_playing (st : GameState) (hs : st.status ≠ Status.playing) :
    tick st = st := by
  unfold tick
  rw [if_pos hs]

/-- A selection of the differing cell while playing runs nextLevel. -/
lemma handleBlockClick_correct (st : GameState) (i : Nat) (r : Rand)
    (hs : st.status = Status.playing) (hi : i = st.diffIndex) :
    handleBlockClick st i r = nextLevel st r := by
  unfold handleBlockClick
  rw [if_neg (not_not_intro hs), if_pos hi]

/-- A selection of any other cell while playing only clamps timeLeft. -/
lemma handleBlockClick_incorrect (st : GameState) (i : Nat) (r : Rand)
    (hs : st.status = Status.playing) (hi : i ≠ st.diffIndex) :
    handleBlockClick st i r = { st with timeLeft := max 0 (st.timeLeft - 3) } := by
  unfold handleBlockClick
  rw [if_neg (not_not_intro hs), if_neg hi]

/-- A deliberately reachable-looking terminal state for witnesses. -/
def sOver : GameState :=
  { status := Status.gameover
    score := 3
    timeLeft := 0
    level := 2
    gridSize := 3
    baseColor := { h := 10, s := 50, l := 40 }
    diffColor := { h := 10, s := 50, l := 50 }
    diffIndex := 2
    lastDiffInfo := none }

/-- Claim C3: while playing, a tick with at least 2 seconds left decrements
timeLeft by exactly 1 and keeps the session playing; a tick with at most 1
second left sets timeLeft to 0 and ends the session; and from a freshly
started session, 59 ticks give timeLeft 1 still playing and the 60th tick
gives timeLeft 0 with the session over. -/
theorem tick_countdown :
    (∀ st : GameState, st.status = Status.playing → 2 ≤ st.timeLeft →
      (tick st).timeLeft = st.timeLeft - 1 ∧ (tick st).status = Status.playing) ∧
    (∀ st : GameState, st.status = Status.playing → st.timeLeft ≤ 1 →
      (tick st).timeLeft = 0 ∧ (tick st).status = Status.gameover) ∧
    (∀ r : Rand,
      (tick^[59] (startGame r)).timeLeft = 1 ∧
      (tick^[59] (startGame r)).status = Status.playing ∧
      (tick^[60] (startGame r)).timeLeft = 0 ∧
      (tick^[60] (startGame r)).status = Status.gameover) := by
  refine ⟨?_, ?_, ?_⟩
  · intro st hs h2
    have hgt : ¬ st.timeLeft ≤ 1 := by omega
    rw [tick_decrement st hs hgt]
    exact ⟨rfl, hs⟩
  · intro st hs h1
    rw [tick_timeout st hs h1]
    exact ⟨rfl, rfl⟩
  · intro r
    have hs : (startGame r).status = Status.playing := rfl
    have ht : (startGame r).timeLeft = 60 := rfl
    obtain ⟨h1, h2⟩ := tick_iterate (startGame r) hs 59 (by rw [ht]; norm_num)
    have h1eval : (tick^[59] (startGame r)).timeLeft = 1 := by rw [h1, ht]; norm_num
    have h60 : tick^[60] (startGame r) = tick (tick^[59] (startGame r)) :=
      Function.iterate_succ_apply' tick 59 (startGame r)
    have hfin : tick (tick^[59] (startGame r)) =
        { tick^[59] (startGame r) with timeLeft := 0, status := Status.gameover } :=
      tick_timeout _ h2 (by rw [h1eval])
    refine ⟨h1eval, h2, ?_, ?_⟩
    · rw [h60, hfin]
    · rw [h60, hfin]

/-- Witness for C3 at a playing state with 40 seconds and at rand0. -/
theorem tick_countdown_witness :
    ((tick sLevel3).timeLeft = sLevel3.timeLeft - 1 ∧ (tick sLevel3).status = Status.playing) ∧
    (tick^[59] (startGame rand0)).timeLeft = 1 ∧
    (tick^[60] (startGame rand0)).status = Status.gameover :=
  ⟨tick_countdown.1 sLevel3 rfl (by decide),
   (tick_countdown.2.2 rand0).1, (tick_countdown.2.2 rand0).2.2.2⟩

/-- Claim C6: a correct selection while playing increments score and level
by exactly 1, stays playing, installs the round generated for the new
level, and its diffIndex is a valid cell of the new grid. -/
theorem correct_select_advances (st : GameState) (i : Nat) (r : Rand)
    (hs : st.status = Status.playing) (hi : i = st.diffIndex) :
    (handleBlockClick st i r).score = st.score + 1 ∧
    (handleBlockClick st i r).level = st.level + 1 ∧
    (handleBlockClick st i r).status = Status.playing ∧
    (handleBlockClick st i r).gridSize = (generateColors (st.level + 1) r).gridSize ∧
    (handleBlockClick st i r).baseColor = (generateColors (st.level + 1) r).baseColor ∧
    (handleBlockClick st i r).diffColor = (generateColors (st.level + 1) r).diffColor ∧
    (handleBlockClick st i r).diffIndex = (generateColors (st.level + 1) r).diffIndex ∧
    (handleBlockClick st i r).diffIndex <
      (handleBlockClick st i r).gridSize * (handleBlockClick st i r).gridSize := by
  rw [handleBlockClick_correct st i r hs hi]
  refine ⟨rfl, rfl, hs, rfl, rfl, rfl, rfl, ?_⟩
  show (generateColors (st.level + 1) r).diffIndex <
    (generateColors (st.level + 1) r).gridSize * (generateColors (st.level + 1) r).gridSize
  have hg := two_le_gridSize (st.level + 1) r
  have hpos : 0 < (generateColors (st.level + 1) r).gridSize *
      (generateColors (st.level + 1) r).gridSize := Nat.mul_pos (by omega) (by omega)
  exact Nat.mod_lt _ hpos

/-- Witness for C6: the correct click on sLevel3. -/
theorem correct_select_advances_witness :
    (handleBlockClick sLevel3 0 rand0).score = sLevel3.score + 1 ∧
    (handleBlockClick sLevel3 0 rand0).level = sLevel3.level + 1 ∧
    (handleBlockClick sLevel3 0 rand0).status = Status.playing ∧
    (handleBlockClick sLevel3 0 rand0).gridSize = (generateColors (sLevel3.level + 1) rand0).gridSize ∧
    (handleBlockClick sLevel3 0 rand0).baseColor = (generateColors (sLevel3.level + 1) rand0).baseColor ∧
    (handleBlockClick sLevel3 0 rand0).diffColor = (generateColors (sLevel3.level + 1) rand0).diffColor ∧
    (handleBlockClick sLevel3 0 rand0).diffIndex = (generateColors (sLevel3.level + 1) rand0).diffIndex ∧
    (handleBlockClick sLevel3 0 rand0).diffIndex <
      (handleBlockClick sLevel3 0 rand0).gridSize * (handleBlockClick sLevel3 0 rand0).gridSize :=
  correct_select_advances sLevel3 0 rand0 rfl rfl

/-- Claim C7: an incorrect selection while playing sets timeLeft to
max(0, timeLeft - 3) and changes nothing else: score, level, gridSize,
both colors, diffIndex, lastDiffInfo and the status are preserved. -/
theorem incorrect_select_frame (st : GameState) (i : Nat) (r : Rand)
    (hs : st.status = Status.playing) (hi : i ≠ st.diffIndex) :
    handleBlockClick st i r = { st with timeLeft := max 0 (st.timeLeft - 3) } ∧
    (handleBlockClick st i r).timeLeft = max 0 (st.timeLeft - 3) ∧
    (handleBlockClick st i r).score = st.score ∧
    (handleBlockClick st i r).level = st.level ∧
    (handleBlockClick st i r).gridSize = st.gridSize ∧
    (handleBlockClick st i r).baseColor = st.baseColor ∧
    (handleBlockClick st i r).diffColor = st.diffColor ∧
    (handleBlockClick st i r).diffIndex = st.diffIndex ∧
    (handleBlockClick st i r).lastDiffInfo = st.lastDiffInfo ∧
    (handleBlockClick st i r).status = Status.playing := by
  rw [handleBlockClick_incorrect st i r hs hi]
  exact ⟨rfl, rfl, rfl, rfl, rfl, rfl, rfl, rfl, rfl, hs⟩

/-- Witness for C7: an incorrect click on sClamp. -/
theorem incorrect_select_frame_witness :
    handleBlockClick sClamp 1 rand0 = { sClamp with timeLeft := max 0 (sClamp.timeLeft - 3) } ∧
    (handleBlockClick sClamp 1 rand0).timeLeft = max 0 (sClamp.timeLeft - 3) ∧
    (handleBlockClick sClamp 1 rand0).score = sClamp.score ∧
    (handleBlockClick sClamp 1 rand0).level = sClamp.level ∧
    (handleBlockClick sClamp 1 rand0).gridSize = sClamp.gridSize ∧
    (handleBlockClick sClamp 1 rand0).baseColor = sClamp.baseColor ∧
    (handleBlockClick sClamp 1 rand0).diffColor = sClamp.diffColor ∧
    (handleBlockClick sClamp 1 rand0).diffIndex = sClamp.diffIndex ∧
    (handleBlockClick sClamp 1 rand0).lastDiffInfo = sClamp.lastDiffInfo ∧
    (handleBlockClick sClamp 1 rand0).status = Status.playing :=
  incorrect_select_frame sClamp 1 rand0 rfl (by decide)

/-- Claim C8: starting yields a full reset regardless of the previous
state: score 0, timeLeft 60, level 1, playing, the round generated by
generateColors 1, and no lastDiffInfo snapshot; the start transition is
the same function of the random draw from every prior state. -/
theorem start_resets (r : Rand) :
    (startGame r).status = Status.playing ∧
    (startGame r).score = 0 ∧
    (startGame r).timeLeft = 60 ∧
    (startGame r).level = 1 ∧
    (startGame r).gridSize = (generateColors 1 r).gridSize ∧
    (startGame r).baseColor = (generateColors 1 r).baseColor ∧
    (startGame r).diffColor = (generateColors 1 r).diffColor ∧
    (startGame r).diffIndex = (generateColors 1 r).diffIndex ∧
    (startGame r).lastDiffInfo = none ∧
    (∀ s1 s2 : GameState, step s1 (Cmd.start r) = step s2 (Cmd.start r)) :=
  ⟨rfl, rfl, rfl, rfl, rfl, rfl, rfl, rfl, rfl, fun _ _ => rfl⟩

/-- Claim C9: while the status is not playing (idle or gameover), select
and tick are both silent no-ops, leaving the state unchanged. -/
theorem noop_when_not_playing (st : GameState) (i : Nat) (r : Rand)
    (hs : st.status ≠ Status.playing) :
    handleBlockClick st i r = st ∧ tick st = st :=
  ⟨handleBlockClick_not_playing st i r hs, tick_not_playing st hs⟩

/-- Witness for C9 at an ended state. -/
theorem noop_when_not_playing_witness :
    handleBlockClick sOver 0 rand0 = sOver ∧ tick sOver = sOver :=
  noop_when_not_playing sOver 0 rand0 (by decide)

end ColorGame

namespace ColorGame

/-- Claim C4, evaluated at a failing input: sLevel3 holds exactly the
round generateColors 3 rand0 (whose delta is 15, matching the 15-point
lightness gap of its two colors), yet after the correct click the stored
lastDiffInfo carries the NEW round delta generateColors 4 rand0, which is
14 — not the 15 of the snapshotted colors. -/
theorem lastDiffInfo_stores_new_delta :
    sLevel3.baseColor = (generateColors 3 rand0).baseColor ∧
    sLevel3.diffColor = (generateColors 3 rand0).diffColor ∧
    (generateColors 3 rand0).delta = 15 ∧
    sLevel3.baseColor.l - sLevel3.diffColor.l = 15 ∧
    (handleBlockClick sLevel3 0 rand0).lastDiffInfo =
      some { base := colorToCSS sLevel3.baseColor
             diff := colorToCSS sLevel3.diffColor
             delta := (generateColors 4 rand0).delta } ∧
    (generateColors 4 rand0).delta = 14 := by
  refine ⟨rfl, rfl, rfl, rfl, rfl, rfl⟩

/-- Claim C5, counterexample: an incorrect selection at timeLeft 2 clamps
timeLeft to 0 but the status stays playing at that moment, not gameover
as the claim asserts. -/
theorem clamp_keeps_playing_counterexample :
    (handleBlockClick sClamp 1 rand0).timeLeft = 0 ∧
    (handleBlockClick sClamp 1 rand0).status = Status.playing ∧
    (handleBlockClick sClamp 1 rand0).status ≠ Status.gameover := by
  refine ⟨by decide, by decide, by decide⟩

/-- Claim C5 as amended: in every reachable state timeLeft is nonnegative;
an incorrect selection at timeLeft 2 clamps timeLeft to 0 while the status
stays playing, and only the next tick then forces the session over; the
tick path itself forces gameover whenever it clamps timeLeft to 0. -/
theorem timeLeft_clamp_rules :
    (∀ st : GameState, Reachable st → 0 ≤ st.timeLeft) ∧
    (∀ (st : GameState) (i : Nat) (r : Rand), st.status = Status.playing →
      i ≠ st.diffIndex → st.timeLeft = 2 →
      (handleBlockClick st i r).timeLeft = 0 ∧
      (handleBlockClick st i r).status = Status.playing ∧
      (tick (handleBlockClick st i r)).timeLeft = 0 ∧
      (tick (handleBlockClick st i r)).status = Status.gameover) ∧
    (∀ st : GameState, st.status = Status.playing → st.timeLeft ≤ 1 →
      (tick st).timeLeft = 0 ∧ (tick st).status = Status.gameover) := by
  refine ⟨?_, ?_, ?_⟩
  · intro st h
    induction h with
    | init => norm_num [initialState, INITIAL_TIME]
    | step s c _ ih =>
      cases c with
      | start r =>
        show (0 : Int) ≤ (startGame r).timeLeft
        norm_num [startGame, INITIAL_TIME]
      | select i r =>
        show 0 ≤ (handleBlockClick s i r).timeLeft
        by_cases hs : s.status = Status.playing
        · by_cases hi : i = s.diffIndex
          · rw [handleBlockClick_correct s i r hs hi]
            exact ih
          · rw [handleBlockClick_incorrect s i r hs hi]
            exact le_max_left 0 _
        · rw [handleBlockClick_not_playing s i r hs]
          exact ih
      | timerTick =>
        show 0 ≤ (tick s).timeLeft
        by_cases hs : s.status = Status.playing
        · by_cases h1 : s.timeLeft ≤ 1
          · rw [tick_timeout s hs h1]
          · rw [tick_decrement s hs h1]
            show 0 ≤ s.timeLeft - 1
            omega
        · rw [tick_not_playing s hs]
          exact ih
  · intro st i r hs hi h2
    have hframe := handleBlockClick_incorrect st i r hs hi
    have ht : (handleBlockClick st i r).timeLeft = 0 := by
      rw [hframe]
      show max 0 (st.timeLeft - 3) = 0
      rw [h2]
      decide
    have hstat : (handleBlockClick st i r).status = Status.playing := by
      rw [hframe]
      exact hs
    have hend := tick_timeout (handleBlockClick st i r) hstat (by rw [ht]; norm_num)
    refine ⟨ht, hstat, ?_, ?_⟩
    · rw [hend]
    · rw [hend]
  · intro st hs h1
    rw [tick_timeout st hs h1]
    exact ⟨rfl, rfl⟩

/-- Witness for the amended C5: the initial state is reachable with
nonnegative time, and the concrete clamped click on sClamp behaves as
stated. -/
theorem timeLeft_clamp_rules_witness :
    0 ≤ initialState.timeLeft ∧
    ((handleBlockClick sClamp 1 rand0).timeLeft = 0 ∧
     (handleBlockClick sClamp 1 rand0).status = Status.playing ∧
     (tick (handleBlockClick sClamp 1 rand0)).timeLeft = 0 ∧
     (tick (handleBlockClick sClamp 1 rand0)).status = Status.gameover) :=
  ⟨timeLeft_clamp_rules.1 initialState Reachable.init,
   timeLeft_clamp_rules.2.1 sClamp 1 rand0 rfl (by decide) rfl⟩

end ColorGame
